import Mathlib

/-!
# Land Explorer — verification of the simulation core

Shallow embedding of the gameplay script `src/javascript/game.js`:
the geometry utility (`rectOverlap`, `clamp`), the four puzzle state
machines (pressure plate, strict sequence, crate target, toggle
switch/teleporter), the collision and movement resolver
(`canRectMoveTo`, `canPlayerMoveTo`, `movePlayer`), the region
transition resolver (`checkRegionSwitch`), and the save/load restore
path (`loadGame` / `initGame`).

Coordinates are JS numbers; they are modelled as rationals.  JS
`Math.round` is modelled as `⌊q + 1/2⌋`, which agrees with it on all
rational inputs (round half toward +∞).  JS boolean results are
modelled as `Bool`, with each JS comparison an `if`-condition on the
corresponding proposition.
-/

namespace LandExplorer

/-- `const TILE = 32`. -/
def TILE : ℚ := 32

/-- `const COLS = 30` (all regions share this width, in tiles). -/
def COLS : ℚ := 30

/-- `const ROWS = 18` (all regions share this height, in tiles). -/
def ROWS : ℚ := 18

/-- An axis-aligned rectangle `{x, y, w, h}`. -/
structure Rect where
  x : ℚ
  y : ℚ
  w : ℚ
  h : ℚ
deriving DecidableEq

/-- `rectOverlap(a, b)` from game.js:
`!(a.x + a.w <= b.x || a.x >= b.x + b.w || a.y + a.h <= b.y || a.y >= b.y + b.h)`. -/
def rectOverlap (a b : Rect) : Bool :=
  if a.x + a.w ≤ b.x ∨ a.x ≥ b.x + b.w ∨ a.y + a.h ≤ b.y ∨ a.y ≥ b.y + b.h then false
  else true

/-- `clamp(v, a, b) = Math.max(a, Math.min(b, v))`. -/
def clamp (v a b : ℚ) : ℚ := max a (min b v)

/-- JS `Math.round`: round half toward positive infinity. -/
def jsRound (q : ℚ) : ℤ := ⌊q + 1 / 2⌋

/-- A strict-sequence pad `{x, y}` from `generateContent` — note it
carries NO `w`/`h` fields. -/
abbrev Pad := ℚ × ℚ

/-- The TILE × TILE rectangle the touch tests build from a pad
(`{ x: p.x, y: p.y, w: TILE, h: TILE }`). -/
def padRect (p : Pad) : Rect := ⟨p.1, p.2, TILE, TILE⟩

/-- `rectOverlap(a, pad)` when `pad` is a raw `{x, y}` pad (the
strict-sequence exit check passes `padToExit` without wrapping it):
`pad.w` and `pad.h` are `undefined`, so the JS comparisons
`a.x >= pad.x + undefined` and `a.y >= pad.y + undefined` evaluate
against `NaN` and are always false, leaving
`!(a.x + a.w <= pad.x || a.y + a.h <= pad.y)`. -/
def rectOverlapRawPad (a : Rect) (p : Pad) : Bool :=
  if a.x + a.w ≤ p.1 ∨ a.y + a.h ≤ p.2 then false
  else true

theorem bool_eq_of_iff {a b : Bool} (h : a = true ↔ b = true) : a = b := by
  cases a <;> cases b <;> simp_all

theorem rectOverlap_eq_true_iff (a b : Rect) :
    rectOverlap a b = true ↔
      b.x < a.x + a.w ∧ a.x < b.x + b.w ∧ b.y < a.y + a.h ∧ a.y < b.y + b.h := by
  unfold rectOverlap
  split_ifs with h
  · constructor
    · intro hc
      simp at hc
    · rintro ⟨h1, h2, h3, h4⟩
      rcases h with h | h | h | h <;> linarith
  · push_neg at h
    simpa using h

theorem rectOverlap_eq_false_iff (a b : Rect) :
    rectOverlap a b = false ↔
      a.x + a.w ≤ b.x ∨ b.x + b.w ≤ a.x ∨ a.y + a.h ≤ b.y ∨ b.y + b.h ≤ a.y := by
  unfold rectOverlap
  split_ifs with h
  · simpa [ge_iff_le] using h
  · simpa [ge_iff_le] using h

/-- Claim C7 counterexample: the width-zero, height-zero rectangle at the
origin does not overlap itself, so "every rectangle overlaps itself" is
false on the full input domain of `rectOverlap`. -/
theorem rectOverlap_degenerate_self :
    rectOverlap ⟨0, 0, 0, 0⟩ ⟨0, 0, 0, 0⟩ = false := by
  norm_num [rectOverlap]

/-- Claim C7 (amended): `rectOverlap` is symmetric for all rectangles
(degenerate ones included), and every rectangle of strictly positive
width and height overlaps itself; a rectangle with zero width or height
does not overlap itself. -/
theorem rectOverlap_symm_and_self :
    (∀ a b : Rect, rectOverlap a b = rectOverlap b a) ∧
    (∀ a : Rect, 0 < a.w → 0 < a.h → rectOverlap a a = true) := by
  constructor
  · intro a b
    apply bool_eq_of_iff
    rw [rectOverlap_eq_true_iff, rectOverlap_eq_true_iff]
    tauto
  · intro a hw hh
    rw [rectOverlap_eq_true_iff]
    refine ⟨?_, ?_, ?_, ?_⟩ <;> linarith

/-- Witness for the amended C7 at the player's actual size (24 × 24). -/
theorem rectOverlap_symm_and_self_witness :
    (0 : ℚ) < 24 ∧ rectOverlap ⟨96, 96, 24, 24⟩ ⟨96, 96, 24, 24⟩ = true :=
  ⟨by norm_num,
   rectOverlap_symm_and_self.2 ⟨96, 96, 24, 24⟩ (by norm_num) (by norm_num)⟩

/-- Claim C9 (amended): the overlap test is boundary-exclusive wherever
it is called with two full `{x, y, w, h}` rectangles.  Rectangles
touching only along an edge (`a.x + a.w = b.x`, or the analogous
condition on the y-axis) never overlap; for rectangles of positive
extent, overlap holds exactly when the intersection is strictly positive
on both axes.  The exception is the one call site that passes a raw
`{x, y}` pad (the strict-sequence exit check): there the test degrades
to `pd.x < a.x + a.w ∧ pd.y < a.y + a.h`, which is boundary-INCLUSIVE
(indeed unbounded) to the right of and below the pad origin. -/
theorem rectOverlap_boundary_exclusive :
    (∀ a b : Rect, a.x + a.w = b.x → rectOverlap a b = false) ∧
    (∀ a b : Rect, a.y + a.h = b.y → rectOverlap a b = false) ∧
    (∀ a b : Rect, 0 < a.w → 0 < a.h → 0 < b.w → 0 < b.h →
      (rectOverlap a b = true ↔
        max a.x b.x < min (a.x + a.w) (b.x + b.w) ∧
        max a.y b.y < min (a.y + a.h) (b.y + b.h))) ∧
    (∀ (a : Rect) (pd : Pad),
      rectOverlapRawPad a pd = true ↔ pd.1 < a.x + a.w ∧ pd.2 < a.y + a.h) := by
  refine ⟨?_, ?_, ?_, ?_⟩
  · intro a b h
    rw [rectOverlap_eq_false_iff]
    exact Or.inl h.le
  · intro a b h
    rw [rectOverlap_eq_false_iff]
    exact Or.inr (Or.inr (Or.inl h.le))
  · intro a b haw hah hbw hbh
    rw [rectOverlap_eq_true_iff]
    constructor
    · rintro ⟨h1, h2, h3, h4⟩
      constructor
      · rw [max_lt_iff, lt_min_iff, lt_min_iff]
        exact ⟨⟨by linarith, h2⟩, ⟨h1, by linarith⟩⟩
      · rw [max_lt_iff, lt_min_iff, lt_min_iff]
        exact ⟨⟨by linarith, h4⟩, ⟨h3, by linarith⟩⟩
    · rintro ⟨hx, hy⟩
      rw [max_lt_iff, lt_min_iff, lt_min_iff] at hx hy
      exact ⟨hx.2.1, hx.1.2, hy.2.1, hy.1.2⟩
  · intro a pd
    unfold rectOverlapRawPad
    split_ifs with h
    · constructor
      · intro hc
        simp at hc
      · rintro ⟨h1, h2⟩
        rcases h with h | h <;> linarith
    · push_neg at h
      simpa using h

/-- Witness for the amended C9: a crate exactly adjacent to a target tile
(`a.x + a.w = b.x`) does not overlap it; two genuinely intersecting
tiles satisfy the positive-intersection characterization; and the
raw-pad variant counts a tile edge-adjacent to the right of a pad as
touching. -/
theorem rectOverlap_boundary_exclusive_witness :
    ((160 : ℚ) + 32 = 192 ∧ rectOverlap ⟨160, 192, 32, 32⟩ ⟨192, 192, 32, 32⟩ = false) ∧
    rectOverlap ⟨190, 200, 32, 32⟩ ⟨192, 192, 32, 32⟩ = true ∧
    rectOverlapRawPad ⟨832, 256, 32, 32⟩ (800, 256) = true :=
  ⟨⟨by norm_num,
    rectOverlap_boundary_exclusive.1 ⟨160, 192, 32, 32⟩ ⟨192, 192, 32, 32⟩ (by norm_num)⟩,
   ((rectOverlap_boundary_exclusive.2.2.1 ⟨190, 200, 32, 32⟩ ⟨192, 192, 32, 32⟩
      (by norm_num) (by norm_num) (by norm_num) (by norm_num)).mpr (by norm_num)),
   ((rectOverlap_boundary_exclusive.2.2.2 ⟨832, 256, 32, 32⟩ (800, 256)).mpr (by norm_num))⟩

/-! ## Puzzle state machines -/

/-- One pressure plate `{x, y, isPressed}` of `createDynamicPlatePuzzle`. -/
structure Plate where
  x : ℚ
  y : ℚ
  isPressed : Bool
deriving DecidableEq

/-- State of the pressure-plate puzzle (region 0). -/
structure PlatePuzzle where
  solved : Bool
  platesData : List Plate
deriving DecidableEq

/-- `checkPressed(p)`: the player or any crate of the region overlaps the
plate's tile. -/
def checkPressed (player : Rect) (crates : List Rect) (p : Plate) : Bool :=
  rectOverlap player ⟨p.x, p.y, TILE, TILE⟩ ||
    crates.any fun c => rectOverlap c ⟨p.x, p.y, TILE, TILE⟩

/-- `createDynamicPlatePuzzle(...).update()`.  The second component records
whether the completion effect `playPuzzleClear()` fired this call. -/
def platePuzzleUpdate (player : Rect) (crates : List Rect) (pz : PlatePuzzle) :
    PlatePuzzle × Bool :=
  if pz.solved = true then (pz, false)
  else
    let newPlates := pz.platesData.map fun p =>
      { p with isPressed := checkPressed player crates p }
    if newPlates.all (·.isPressed) then ({ solved := true, platesData := newPlates }, true)
    else ({ pz with platesData := newPlates }, false)

/-- Plate puzzle `getState()`: `{ solved: this.solved }`. -/
def plateGetState (pz : PlatePuzzle) : Bool := pz.solved

/-- Plate puzzle `setState(state)`: `this.solved = !!state.solved`. -/
def plateSetState (solved : Bool) (pz : PlatePuzzle) : PlatePuzzle :=
  { pz with solved := solved }

/-- State of the strict-sequence puzzle (region 1), with the two
transient flags of `puzzlePadInteraction[padKey]` folded in:
`entered` is `enteredCorrectPad` and `lastHit` is `lastHitIndex`. -/
structure SeqPuzzle where
  solved : Bool
  index : ℤ
  entered : Bool
  lastHit : ℤ
deriving DecidableEq

/-- JS `Array.prototype.findIndex`, `Option`-valued. -/
def findIdxO {α : Type} (f : α → Bool) : List α → Option ℕ
  | [] => none
  | a :: l => if f a = true then some 0 else (findIdxO f l).map (· + 1)

/-- `pads.findIndex(p => rectOverlap(playerRect, {...p, w: TILE, h: TILE}))`
with the JS `-1`-for-missing convention.  Note the player rectangle used
by the strict-sequence puzzle is TILE × TILE, not the player's 24 × 24. -/
def touchedPadIndex (pads : List Pad) (px py : ℚ) : ℤ :=
  match findIdxO (fun p => rectOverlap ⟨px, py, TILE, TILE⟩ (padRect p)) pads with
  | some i => (i : ℤ)
  | none => -1

/-- `padToExit && rectOverlap(playerRect, padToExit)`: a JS truthiness
test on a possibly-`undefined` pad, followed by the overlap test applied
to the RAW `{x, y}` pad — the exit check does not wrap the pad in a
TILE × TILE rectangle, so the NaN semantics of `rectOverlapRawPad`
apply. -/
def overlapOpt (playerRect : Rect) : Option Pad → Bool
  | some p => rectOverlapRawPad playerRect p
  | none => false

/-- `createStrictSequencePuzzle(...).update()`.  The second component
records whether the completion effect `playPuzzleClear()` fired.
The inner JS guard `this.index > 0 || touchedPadIndex !== -1` of the
reset branch is implied by the branch condition and is flattened away.
`pads[lastHitIndex]` is `undefined` (here `none`) for a negative or
out-of-range index. -/
def seqUpdate (pads : List Pad) (px py : ℚ) (pz : SeqPuzzle) : SeqPuzzle × Bool :=
  if pz.solved = true then (pz, false)
  else
    let playerRect : Rect := ⟨px, py, TILE, TILE⟩
    let touched : ℤ := touchedPadIndex pads px py
    if touched ≠ -1 ∧ ¬touched = pz.index then
      ({ pz with index := 0, entered := false, lastHit := -1 }, false)
    else if touched = pz.index then
      ({ pz with entered := true, lastHit := pz.index }, false)
    else
      let padToExit := if 0 ≤ pz.lastHit then pads.get? pz.lastHit.toNat else none
      let isStill := overlapOpt playerRect padToExit
      if pz.entered = true ∧ isStill = false then
        let newIndex := pz.index + 1
        if (pads.length : ℤ) ≤ newIndex then
          ({ solved := true, index := newIndex, entered := false, lastHit := -1 }, true)
        else
          ({ pz with index := newIndex, entered := false, lastHit := -1 }, false)
      else (pz, false)

/-- Strict-sequence `getState()` payload. -/
structure SeqState where
  solved : Bool
  index : ℤ
  enteredCorrectPad : Bool
  lastHitIndex : ℤ
deriving DecidableEq

/-- Strict-sequence `getState()`. -/
def seqGetState (pz : SeqPuzzle) : SeqState :=
  ⟨pz.solved, pz.index, pz.entered, pz.lastHit⟩

/-- Strict-sequence `setState(state)` (the `puzzlePadInteraction[padKey]`
entry exists for a live instance, so both transient flags are restored). -/
def seqSetState (s : SeqState) (_pz : SeqPuzzle) : SeqPuzzle :=
  ⟨s.solved, s.index, s.enteredCorrectPad, s.lastHitIndex⟩

/-- `createCratePuzzle(region).isSolved()`. -/
def crateIsSolved (crates targets : List Rect) : Bool :=
  if crates.length ≠ targets.length then false
  else crates.all fun c => targets.any fun t => rectOverlap c t

/-- `createCratePuzzle(region).update()` on the `solved` flag; the second
component records whether `playPuzzleClear()` fired. -/
def cratePuzzleUpdate (crates targets : List Rect) (solved : Bool) : Bool × Bool :=
  if solved = true then (solved, false)
  else if crateIsSolved crates targets = true then (true, true)
  else (solved, false)

/-- Crate puzzle `getState()`: `{ solved: this.solved }`. -/
def crateGetState (solved : Bool) : Bool := solved

/-- Crate puzzle `setState(state)`. -/
def crateSetState (s : Bool) (_solved : Bool) : Bool := s

/-- One teleporter switch `{x, y, active}` of `createTeleporterPuzzle`. -/
structure Teleporter where
  x : ℚ
  y : ℚ
  active : Bool
deriving DecidableEq

/-- State of the teleporter (toggle-switch) puzzle, region 3. -/
structure TelePuzzle where
  solved : Bool
  teleporterData : List Teleporter
deriving DecidableEq

/-- `createTeleporterPuzzle(...).update(player, interactionKey)`.  The
second component records whether `playPuzzleClear()` fired. -/
def teleUpdate (player : Rect) (interactionKey : Bool) (pz : TelePuzzle) :
    TelePuzzle × Bool :=
  if pz.solved = true then (pz, false)
  else
    let data :=
      if interactionKey = true then
        pz.teleporterData.map fun t =>
          if rectOverlap player ⟨t.x, t.y, TILE, TILE⟩ = true then { t with active := !t.active }
          else t
      else pz.teleporterData
    if data.all (·.active) then ({ solved := true, teleporterData := data }, true)
    else ({ pz with teleporterData := data }, false)

/-- Teleporter `getState()`: `{ solved, activeStates: data.map(t => t.active) }`. -/
def teleGetState (pz : TelePuzzle) : Bool × List Bool :=
  (pz.solved, pz.teleporterData.map (·.active))

/-- The positional `state.activeStates.forEach((a, i) => ...)` restore:
entry `i` of the data gets `activeStates[i]` where both exist. -/
def setActives : List Teleporter → List Bool → List Teleporter
  | ts, [] => ts
  | [], _ :: _ => []
  | t :: ts, a :: rest => { t with active := a } :: setActives ts rest

/-- Teleporter `setState(state)`. -/
def teleSetState (s : Bool × List Bool) (pz : TelePuzzle) : TelePuzzle :=
  { solved := s.1, teleporterData := setActives pz.teleporterData s.2 }

theorem setActives_self (ts : List Teleporter) : setActives ts (ts.map (·.active)) = ts := by
  induction ts with
  | nil => rfl
  | cons t ts ih => simp [setActives, ih]

/-- Claim C3: for every puzzle variant and every state, restoring the
snapshot taken from that state (`setState(getState())`) reproduces the
state exactly — including StrictSequence's `currentIndex` and transient
`enteredCorrectPad` / `lastHitIndex` flags and ToggleSwitch's per-switch
active array. -/
theorem puzzle_snapshot_roundtrip :
    (∀ pz : PlatePuzzle, plateSetState (plateGetState pz) pz = pz) ∧
    (∀ pz : SeqPuzzle, seqSetState (seqGetState pz) pz = pz) ∧
    (∀ solved : Bool, crateSetState (crateGetState solved) solved = solved) ∧
    (∀ pz : TelePuzzle, teleSetState (teleGetState pz) pz = pz) := by
  refine ⟨fun pz => rfl, fun pz => rfl, fun s => rfl, fun pz => ?_⟩
  simp [teleSetState, teleGetState, setActives_self]

/-- Claim C5: for every puzzle variant, `update` with `solved` already
true returns the state unchanged and fires no completion effect,
whatever the player rectangle, crates, pads and interact signal are. -/
theorem puzzle_update_noop_when_solved :
    (∀ (player : Rect) (crates : List Rect) (pz : PlatePuzzle), pz.solved = true →
      platePuzzleUpdate player crates pz = (pz, false)) ∧
    (∀ (pads : List Pad) (px py : ℚ) (pz : SeqPuzzle), pz.solved = true →
      seqUpdate pads px py pz = (pz, false)) ∧
    (∀ (crates targets : List Rect) (solved : Bool), solved = true →
      cratePuzzleUpdate crates targets solved = (solved, false)) ∧
    (∀ (player : Rect) (interactionKey : Bool) (pz : TelePuzzle), pz.solved = true →
      teleUpdate player interactionKey pz = (pz, false)) := by
  refine ⟨?_, ?_, ?_, ?_⟩
  · intro player crates pz h
    simp [platePuzzleUpdate, h]
  · intro pads px py pz h
    simp [seqUpdate, h]
  · intro crates targets solved h
    simp [cratePuzzleUpdate, h]
  · intro player interactionKey pz h
    simp [teleUpdate, h]

/-- Witness for C5 at concrete solved puzzles. -/
theorem puzzle_update_noop_when_solved_witness :
    platePuzzleUpdate ⟨0, 0, 24, 24⟩ [] ⟨true, [⟨128, 160, false⟩]⟩ = (⟨true, [⟨128, 160, false⟩]⟩, false) ∧
    seqUpdate [(800, 256)] 800 256 ⟨true, 1, false, -1⟩ = (⟨true, 1, false, -1⟩, false) ∧
    cratePuzzleUpdate [⟨192, 192, 32, 32⟩] [⟨192, 192, 32, 32⟩] true = (true, false) ∧
    teleUpdate ⟨704, 128, 24, 24⟩ true ⟨true, [⟨704, 128, true⟩]⟩ = (⟨true, [⟨704, 128, true⟩]⟩, false) :=
  ⟨puzzle_update_noop_when_solved.1 _ _ _ rfl,
   puzzle_update_noop_when_solved.2.1 _ _ _ _ rfl,
   puzzle_update_noop_when_solved.2.2.1 _ _ _ rfl,
   puzzle_update_noop_when_solved.2.2.2 _ _ _ rfl⟩

theorem crateIsSolved_eq_true_iff (crates targets : List Rect) :
    crateIsSolved crates targets = true ↔
      crates.length = targets.length ∧
        ∀ c ∈ crates, ∃ t ∈ targets, rectOverlap c t = true := by
  unfold crateIsSolved
  split_ifs with h
  · constructor
    · intro hc
      simp at hc
    · rintro ⟨h1, _⟩
      exact absurd h1 h
  · rw [not_ne_iff] at h
    simp [List.all_eq_true, List.any_eq_true, h]

/-- The solved condition as the spec words it (for comparison with the
implemented `crateIsSolved`): crate and target counts equal, and an
injective assignment of crates to target zones exists under which each
crate overlaps its assigned zone. -/
def specCrateSolvedDistinct (crates targets : List Rect) : Prop :=
  crates.length = targets.length ∧
    ∃ f : Fin crates.length → Fin targets.length,
      Function.Injective f ∧ ∀ i, rectOverlap (crates.get i) (targets.get (f i)) = true

/-- Claim C2 counterexample: with region 2's two real target zones and two
crates that both overlap only the first target, `isSolved()` (and hence
`update` from unsolved) reports solved although no injective assignment
of crates to distinct target zones exists. -/
theorem crate_two_on_one_target :
    crateIsSolved [⟨190, 200, 32, 32⟩, ⟨223, 200, 32, 32⟩]
        [⟨192, 192, 32, 32⟩, ⟨768, 384, 32, 32⟩] = true ∧
    (cratePuzzleUpdate [⟨190, 200, 32, 32⟩, ⟨223, 200, 32, 32⟩]
        [⟨192, 192, 32, 32⟩, ⟨768, 384, 32, 32⟩] false).1 = true ∧
    ¬ specCrateSolvedDistinct [⟨190, 200, 32, 32⟩, ⟨223, 200, 32, 32⟩]
        [⟨192, 192, 32, 32⟩, ⟨768, 384, 32, 32⟩] := by
  have hsolved : crateIsSolved [⟨190, 200, 32, 32⟩, ⟨223, 200, 32, 32⟩]
      [⟨192, 192, 32, 32⟩, ⟨768, 384, 32, 32⟩] = true := by
    norm_num [crateIsSolved, rectOverlap]
  refine ⟨hsolved, by norm_num [cratePuzzleUpdate, hsolved], ?_⟩
  rintro ⟨-, f, hinj, hall⟩
  have hfin : ∀ j : Fin 2, j = ⟨0, by norm_num⟩ ∨ j = ⟨1, by norm_num⟩ := by decide
  have h0 := hall ⟨0, by norm_num⟩
  have h1 := hall ⟨1, by norm_num⟩
  have hf0 : f ⟨0, by norm_num⟩ = ⟨0, by norm_num⟩ := by
    rcases hfin (f ⟨0, by norm_num⟩) with h | h
    · exact h
    · rw [h] at h0
      norm_num [List.get, rectOverlap] at h0
  have hf1 : f ⟨1, by norm_num⟩ = ⟨0, by norm_num⟩ := by
    rcases hfin (f ⟨1, by norm_num⟩) with h | h
    · exact h
    · rw [h] at h1
      norm_num [List.get, rectOverlap] at h1
  have : (⟨0, by norm_num⟩ : Fin 2) = ⟨1, by norm_num⟩ := hinj (hf0.trans hf1.symm)
  simp at this

/-- Claim C2 (amended): starting from unsolved, `update` marks the crate
puzzle solved exactly when the crate count equals the target count and
every crate overlaps SOME target zone — distinctness is not required. -/
theorem crate_solved_iff_each_on_some_target (crates targets : List Rect) (solved : Bool)
    (h : solved = false) :
    ((cratePuzzleUpdate crates targets solved).1 = true ↔
      crates.length = targets.length ∧
        ∀ c ∈ crates, ∃ t ∈ targets, rectOverlap c t = true) := by
  subst h
  unfold cratePuzzleUpdate
  rw [if_neg (by simp)]
  split_ifs with hs
  · simpa using (crateIsSolved_eq_true_iff crates targets).mp hs
  · constructor
    · intro hc
      simp at hc
    · intro hq
      exact absurd ((crateIsSolved_eq_true_iff crates targets).mpr hq) hs

/-- Witness for the amended C2: one crate exactly on the single target. -/
theorem crate_solved_iff_each_on_some_target_witness :
    (cratePuzzleUpdate [⟨192, 192, 32, 32⟩] [⟨192, 192, 32, 32⟩] false).1 = true :=
  (crate_solved_iff_each_on_some_target _ _ false rfl).mpr (by norm_num [rectOverlap])

theorem findIdxO_eq_none_iff {α : Type} (f : α → Bool) (l : List α) :
    findIdxO f l = none ↔ ∀ a ∈ l, f a = false := by
  induction l with
  | nil => simp [findIdxO]
  | cons a l ih =>
      simp only [findIdxO]
      split_ifs with h
      · simp [h]
      · have hf : f a = false := by simpa using h
        simp [Option.map_eq_none', ih, hf]

theorem touchedPadIndex_eq_neg_one_iff (pads : List Pad) (px py : ℚ) :
    touchedPadIndex pads px py = -1 ↔
      ∀ p ∈ pads, rectOverlap ⟨px, py, TILE, TILE⟩ (padRect p) = false := by
  unfold touchedPadIndex
  cases h : findIdxO (fun p => rectOverlap ⟨px, py, TILE, TILE⟩ (padRect p)) pads with
  | none =>
      simp only [eq_self_iff_true, true_iff]
      exact (findIdxO_eq_none_iff _ _).mp h
  | some i =>
      constructor
      · intro hc
        have hci : (i : ℤ) = -1 := hc
        omega
      · intro hall
        have hnone := (findIdxO_eq_none_iff
          (fun p => rectOverlap ⟨px, py, TILE, TILE⟩ (padRect p)) pads).mpr hall
        rw [h] at hnone
        cases hnone

theorem seqUpdate_reset (pads : List Pad) (px py : ℚ) (pz : SeqPuzzle) (t : ℤ)
    (hs : pz.solved = false) (ht : touchedPadIndex pads px py = t)
    (h1 : t ≠ -1) (h2 : t ≠ pz.index) :
    seqUpdate pads px py pz = ({ pz with index := 0, entered := false, lastHit := -1 }, false) := by
  obtain ⟨sol, idx, ent, lh⟩ := pz
  simp only at hs
  subst hs
  simp only [seqUpdate, ht] at h2 ⊢
  simp [h1, h2]

theorem seqUpdate_enter (pads : List Pad) (px py : ℚ) (pz : SeqPuzzle)
    (hs : pz.solved = false) (ht : touchedPadIndex pads px py = pz.index)
    (hne : pz.index ≠ -1) :
    seqUpdate pads px py pz = ({ pz with entered := true, lastHit := pz.index }, false) := by
  obtain ⟨sol, idx, ent, lh⟩ := pz
  simp only at hs ht hne
  subst hs
  simp only [seqUpdate, ht]
  simp

theorem seqUpdate_exit_advance (pads : List Pad) (px py : ℚ) (idx lh : ℤ) (pd : Pad)
    (ht : touchedPadIndex pads px py = -1) (hidx : idx ≠ -1)
    (hlh : 0 ≤ lh) (hpd : pads[lh.toNat]? = some pd)
    (hexit : px + TILE ≤ pd.1 ∨ py + TILE ≤ pd.2) :
    seqUpdate pads px py ⟨false, idx, true, lh⟩ =
      (if (pads.length : ℤ) ≤ idx + 1 then
        (⟨true, idx + 1, false, -1⟩, true)
      else (⟨false, idx + 1, false, -1⟩, false)) := by
  have hne : ¬(-1 : ℤ) = idx := fun h => hidx h.symm
  have hstill :
      overlapOpt ⟨px, py, TILE, TILE⟩ (if (0 : ℤ) ≤ lh then pads[lh.toNat]? else none)
        = false := by
    rw [if_pos hlh, hpd]
    show rectOverlapRawPad ⟨px, py, TILE, TILE⟩ pd = false
    unfold rectOverlapRawPad
    rw [if_pos hexit]
  simp only [seqUpdate, ht]
  simp [hne, hstill]

theorem seqUpdate_exit_still (pads : List Pad) (px py : ℚ) (idx lh : ℤ) (pd : Pad)
    (ht : touchedPadIndex pads px py = -1) (hidx : idx ≠ -1)
    (hlh : 0 ≤ lh) (hpd : pads[lh.toNat]? = some pd)
    (hstillp : pd.1 < px + TILE ∧ pd.2 < py + TILE) :
    seqUpdate pads px py ⟨false, idx, true, lh⟩ = (⟨false, idx, true, lh⟩, false) := by
  have hne : ¬(-1 : ℤ) = idx := fun h => hidx h.symm
  have hstill :
      overlapOpt ⟨px, py, TILE, TILE⟩ (if (0 : ℤ) ≤ lh then pads[lh.toNat]? else none)
        = true := by
    rw [if_pos hlh, hpd]
    show rectOverlapRawPad ⟨px, py, TILE, TILE⟩ pd = true
    unfold rectOverlapRawPad
    rw [if_neg]
    push_neg
    exact hstillp
  simp only [seqUpdate, ht]
  simp [hne, hstill]

/-- Fold `update` over a list of player positions, one tick each. -/
def seqRun (pads : List Pad) (pz : SeqPuzzle) (positions : List (ℚ × ℚ)) : SeqPuzzle :=
  positions.foldl (fun s p => (seqUpdate pads p.1 p.2 s).1) pz

/-- Region 1's three pads, from `generateContent`. -/
def pads1 : List Pad := [(25 * TILE, 8 * TILE), (26 * TILE, 8 * TILE), (27 * TILE, 8 * TILE)]

/-- A freshly created strict-sequence puzzle (index 0, flags clear). -/
def seqInit : SeqPuzzle := ⟨false, 0, false, -1⟩

/-- Claim C6 counterexample: with the entered flag set for pad 0 of
region 1 and the player at (800, 292) — fully exited downward, no
longer overlapping ANY pad — `update` does NOT advance the index: the
exit check passes the raw `{x, y}` pad into `rectOverlap`, whose
missing width/height makes the right/below comparisons NaN (false), so
the player still counts as on the pad.  "Ceasing to overlap that pad
while the flag is set increments `currentIndex` by one", as the claim
states it, is false of the code. -/
theorem strict_sequence_exit_below_does_not_advance :
    touchedPadIndex pads1 800 292 = -1 ∧
    rectOverlap ⟨800, 292, 32, 32⟩ (padRect (25 * TILE, 8 * TILE)) = false ∧
    seqUpdate pads1 800 292 ⟨false, 0, true, 0⟩ = (⟨false, 0, true, 0⟩, false) := by
  refine ⟨?_, ?_, ?_⟩ <;>
    norm_num [seqUpdate, touchedPadIndex, findIdxO, overlapOpt, rectOverlapRawPad,
      rectOverlap, padRect, pads1, TILE, Int.toNat]

/-- Claim C6 (amended): the strict-sequence transition rules.
(1) Touching a pad other than the current target resets the index to 0
and clears the transient flags.  (2) Touching the current target pad
sets the entered flag and records the index.  (3) While the flag is set
and no pad is touched, the exit test compares against the RAW `{x, y}`
pad recorded in `lastHitIndex` (its missing width/height make the
right/below comparisons NaN-false): the index advances by one exactly
when the player ends entirely to the left of or above the pad's origin
(`px + TILE ≤ pad.x ∨ py + TILE ≤ pad.y`), with solved becoming true
exactly when the new index reaches the pad count; otherwise — even when
the player no longer overlaps the pad's tile — the state is kept
unchanged.  Concretely, on region 1's pads: entering then exiting pad 1
from a fresh puzzle leaves the state fresh (solved false, index 0), and
entering and fully exiting pads 0, 1, 2 in order (leftward exits)
yields solved. -/
theorem strict_sequence_transitions :
    (∀ (pads : List Pad) (px py : ℚ) (pz : SeqPuzzle) (t : ℤ),
      pz.solved = false → touchedPadIndex pads px py = t → t ≠ -1 → t ≠ pz.index →
      seqUpdate pads px py pz =
        ({ pz with index := 0, entered := false, lastHit := -1 }, false)) ∧
    (∀ (pads : List Pad) (px py : ℚ) (pz : SeqPuzzle),
      pz.solved = false → touchedPadIndex pads px py = pz.index → pz.index ≠ -1 →
      seqUpdate pads px py pz = ({ pz with entered := true, lastHit := pz.index }, false)) ∧
    (∀ (pads : List Pad) (px py : ℚ) (idx lh : ℤ) (pd : Pad),
      touchedPadIndex pads px py = -1 → idx ≠ -1 → 0 ≤ lh → pads[lh.toNat]? = some pd →
      px + TILE ≤ pd.1 ∨ py + TILE ≤ pd.2 →
      seqUpdate pads px py ⟨false, idx, true, lh⟩ =
        (if (pads.length : ℤ) ≤ idx + 1 then (⟨true, idx + 1, false, -1⟩, true)
         else (⟨false, idx + 1, false, -1⟩, false))) ∧
    (∀ (pads : List Pad) (px py : ℚ) (idx lh : ℤ) (pd : Pad),
      touchedPadIndex pads px py = -1 → idx ≠ -1 → 0 ≤ lh → pads[lh.toNat]? = some pd →
      pd.1 < px + TILE ∧ pd.2 < py + TILE →
      seqUpdate pads px py ⟨false, idx, true, lh⟩ = (⟨false, idx, true, lh⟩, false)) ∧
    seqRun pads1 seqInit [(26 * TILE, 8 * TILE), (0, 0)] = seqInit ∧
    (seqRun pads1 seqInit
      [(25 * TILE, 8 * TILE), (0, 0), (26 * TILE, 8 * TILE), (0, 0),
       (27 * TILE, 8 * TILE), (0, 0)]).solved = true := by
  refine ⟨seqUpdate_reset, seqUpdate_enter, seqUpdate_exit_advance, seqUpdate_exit_still,
    ?_, ?_⟩
  · norm_num [seqRun, seqUpdate, touchedPadIndex, findIdxO, overlapOpt, rectOverlapRawPad,
      rectOverlap, padRect, pads1, seqInit, TILE, List.foldl, Int.toNat]
  · norm_num [seqRun, seqUpdate, touchedPadIndex, findIdxO, overlapOpt, rectOverlapRawPad,
      rectOverlap, padRect, pads1, seqInit, TILE, List.foldl, Int.toNat]

/-- Witness for C6 rule (1): entering pad 1 of region 1 while the target
is pad 0 resets a fresh puzzle to itself. -/
theorem strict_sequence_transitions_witness :
    seqUpdate pads1 (26 * TILE) (8 * TILE) seqInit = (⟨false, 0, false, -1⟩, false) := by
  have ht : touchedPadIndex pads1 (26 * TILE) (8 * TILE) = 1 := by
    norm_num [touchedPadIndex, findIdxO, rectOverlap, padRect, pads1, TILE]
  have h := strict_sequence_transitions.1 pads1 (26 * TILE) (8 * TILE) seqInit 1 rfl ht
    (by norm_num) (by norm_num [seqInit])
  simpa [seqInit] using h

/-- Claim C9 counterexample: at the one call site that passes a raw
`{x, y}` pad — the strict-sequence exit check — exact adjacency DOES
count as touching: a player tile edge-adjacent to the right of pad 2
(shared edge at x = 896) fails the proper TILE × TILE overlap test, yet
the raw-pad test reports touching, and the puzzle accordingly keeps the
entered state instead of advancing. -/
theorem raw_pad_adjacency_counts_as_touching :
    rectOverlap ⟨896, 256, 32, 32⟩ (padRect (27 * TILE, 8 * TILE)) = false ∧
    rectOverlapRawPad ⟨896, 256, 32, 32⟩ (27 * TILE, 8 * TILE) = true ∧
    seqUpdate pads1 896 256 ⟨false, 2, true, 2⟩ = (⟨false, 2, true, 2⟩, false) := by
  refine ⟨?_, ?_, ?_⟩ <;>
    norm_num [seqUpdate, touchedPadIndex, findIdxO, overlapOpt, rectOverlapRawPad,
      rectOverlap, padRect, pads1, TILE, Int.toNat]

/-! ## Collision and movement resolver -/

/-- An exit gate `{x, y, w, h, closed}`. -/
structure Gate where
  x : ℚ
  y : ℚ
  w : ℚ
  h : ℚ
  closed : Bool
deriving DecidableEq

/-- The rectangle the gate occupies (the fields `rectOverlap` reads). -/
def Gate.rect (g : Gate) : Rect := ⟨g.x, g.y, g.w, g.h⟩

/-- The static geometry of one region: grid size, obstacles and gate.
(Crates are mutable and passed separately.) -/
structure RegionGeom where
  cols : ℚ
  rows : ℚ
  obstacles : List Rect
  gate : Option Gate
deriving DecidableEq

/-- The mutable movement state: the player rectangle and the region's
crate rectangles (in array order). -/
structure MoveState where
  player : Rect
  crates : List Rect
deriving DecidableEq

/-- `canRectMoveTo(rect, currentRegion, excludeCrate)`: world bounds,
static obstacles, and every crate other than the excluded (pushed) one.
The exclusion is by array position, matching JS object identity. -/
def canRectMoveTo (rect : Rect) (r : RegionGeom) (crates : List Rect) (excludeIdx : ℕ) : Bool :=
  if rect.x < 0 ∨ rect.y < 0 ∨ rect.x + rect.w > r.cols * TILE ∨
      rect.y + rect.h > r.rows * TILE then false
  else if (r.obstacles.any fun o => rectOverlap rect o) = true then false
  else if ((crates.eraseIdx excludeIdx).any fun c => rectOverlap rect c) = true then false
  else true

/-- The gate term of `canPlayerMoveTo`: `gate && gate.closed &&
rectOverlap(rect, gate)`. -/
def gateBlocks (gate : Option Gate) (rect : Rect) : Bool :=
  match gate with
  | some g => g.closed && rectOverlap rect g.rect
  | none => false

/-- `canPlayerMoveTo(nx, ny)`: static obstacles, the closed gate, and a
loose world-bounds check with a one-TILE allowance on every side (so the
region-switch check can observe the crossing). -/
def canPlayerMoveTo (r : RegionGeom) (nx ny pw ph : ℚ) : Bool :=
  let rect : Rect := ⟨nx, ny, pw, ph⟩
  if (r.obstacles.any fun o => rectOverlap rect o) = true then false
  else if gateBlocks r.gate rect = true then false
  else if nx < -TILE ∨ ny < -TILE ∨ nx + pw > r.cols * TILE + TILE ∨
      ny + ph > r.rows * TILE + TILE then false
  else true

/-- `r.crates.find(c => rectOverlap(attemptedRect, c))`: position and
value of the first crate overlapping the candidate rectangle. -/
def findCollidedCrate (cand : Rect) : List Rect → Option (ℕ × Rect)
  | [] => none
  | c :: cs =>
      if rectOverlap cand c = true then some (0, c)
      else (findCollidedCrate cand cs).map fun p => (p.1 + 1, p.2)

/-- The horizontal half of `movePlayer`: on a crate collision attempt the
push (the gate is NOT consulted); otherwise fall back to
`canPlayerMoveTo`. -/
def movePlayerX (r : RegionGeom) (st : MoveState) (dx : ℚ) : MoveState :=
  if dx = 0 then st
  else
    let nx := st.player.x + dx
    let attempted : Rect := ⟨nx, st.player.y, st.player.w, st.player.h⟩
    match findCollidedCrate attempted st.crates with
    | some ic =>
        let nextCrate : Rect := { ic.2 with x := ic.2.x + dx }
        if canRectMoveTo nextCrate r st.crates ic.1 = true then
          { player := { st.player with x := nx }, crates := st.crates.set ic.1 nextCrate }
        else st
    | none =>
        if canPlayerMoveTo r nx st.player.y st.player.w st.player.h = true then
          { st with player := { st.player with x := nx } }
        else st

/-- The vertical half of `movePlayer`, running on the state left by the
horizontal half (JS uses `newPlayerX` and the already-moved crate). -/
def movePlayerY (r : RegionGeom) (st : MoveState) (dy : ℚ) : MoveState :=
  if dy = 0 then st
  else
    let ny := st.player.y + dy
    let attempted : Rect := ⟨st.player.x, ny, st.player.w, st.player.h⟩
    match findCollidedCrate attempted st.crates with
    | some ic =>
        let nextCrate : Rect := { ic.2 with y := ic.2.y + dy }
        if canRectMoveTo nextCrate r st.crates ic.1 = true then
          { player := { st.player with y := ny }, crates := st.crates.set ic.1 nextCrate }
        else st
    | none =>
        if canPlayerMoveTo r st.player.x ny st.player.w st.player.h = true then
          { st with player := { st.player with y := ny } }
        else st

/-- `movePlayer(dx, dy)`: X axis resolved first, then Y. -/
def movePlayer (r : RegionGeom) (st : MoveState) (dx dy : ℚ) : MoveState :=
  movePlayerY r (movePlayerX r st dx) dy

theorem findCollidedCrate_eq_none {cand : Rect} {cs : List Rect}
    (h : ∀ c ∈ cs, rectOverlap cand c = false) : findCollidedCrate cand cs = none := by
  induction cs with
  | nil => rfl
  | cons c cs ih =>
      have hc : rectOverlap cand c = false := h c (by simp)
      simp only [findCollidedCrate, hc]
      simp [ih fun c hmem => h c (by simp [hmem])]

theorem canPlayerMoveTo_eq_false_of_gate {r : RegionGeom} {g : Gate} {nx ny pw ph : ℚ}
    (hg : r.gate = some g) (hc : g.closed = true)
    (hov : rectOverlap ⟨nx, ny, pw, ph⟩ g.rect = true) :
    canPlayerMoveTo r nx ny pw ph = false := by
  unfold canPlayerMoveTo
  have hgate : gateBlocks r.gate ⟨nx, ny, pw, ph⟩ = true := by
    rw [hg]
    simp [gateBlocks, hc, hov]
  simp only [hgate]
  split_ifs <;> rfl

/-- Region 2 (Ancient Ruins), from `generateContent`, with its gate in
the initial (closed) state. -/
def ruinsGeom : RegionGeom :=
  { cols := COLS, rows := ROWS,
    obstacles := [⟨15 * TILE, 6 * TILE, 2 * TILE, 2 * TILE⟩,
                  ⟨20 * TILE, 3 * TILE, 3 * TILE, TILE⟩,
                  ⟨20 * TILE, 14 * TILE, 3 * TILE, TILE⟩],
    gate := some ⟨COLS * TILE - 8, 0, 16, ROWS * TILE, true⟩ }

/-- Claim C1 counterexample: in region 2 with its gate closed, a player
pushing a crate rightward moves, and the crate ends up overlapping the
closed gate — the push branch of `movePlayer` never consults the gate,
so a crate IS pushed into the closed gate. -/
theorem crate_pushed_into_closed_gate :
    (movePlayer ruinsGeom ⟨⟨894, 100, 24, 24⟩, [⟨920, 96, 32, 32⟩, ⟨384, 384, 32, 32⟩]⟩ 3 0).player.x = 897 ∧
    (movePlayer ruinsGeom ⟨⟨894, 100, 24, 24⟩, [⟨920, 96, 32, 32⟩, ⟨384, 384, 32, 32⟩]⟩ 3 0).crates
      = [⟨923, 96, 32, 32⟩, ⟨384, 384, 32, 32⟩] ∧
    (ruinsGeom.gate.map Gate.closed = some true) ∧
    (ruinsGeom.gate.map fun g => rectOverlap ⟨923, 96, 32, 32⟩ g.rect) = some true := by
  refine ⟨?_, ?_, by norm_num [ruinsGeom, COLS, ROWS, TILE], ?_⟩
  · norm_num [movePlayer, movePlayerX, movePlayerY, findCollidedCrate, canRectMoveTo,
      rectOverlap, ruinsGeom, COLS, ROWS, TILE, List.eraseIdx, List.any]
  · norm_num [movePlayer, movePlayerX, movePlayerY, findCollidedCrate, canRectMoveTo,
      rectOverlap, ruinsGeom, COLS, ROWS, TILE, List.eraseIdx, List.any, List.set]
  · norm_num [ruinsGeom, Gate.rect, rectOverlap, COLS, ROWS, TILE]

/-- Claim C1 (amended): when NO crate overlaps the candidate rectangle on
an axis, a candidate overlapping the region's closed gate blocks all
movement on that axis (player and crates unchanged); the guarantee does
not extend to the crate-push branch, which ignores the gate. -/
theorem closed_gate_blocks_axis (r : RegionGeom) (g : Gate)
    (hg : r.gate = some g) (hc : g.closed = true) :
    (∀ (st : MoveState) (dx : ℚ),
      (∀ c ∈ st.crates,
        rectOverlap ⟨st.player.x + dx, st.player.y, st.player.w, st.player.h⟩ c = false) →
      rectOverlap ⟨st.player.x + dx, st.player.y, st.player.w, st.player.h⟩ g.rect = true →
      movePlayerX r st dx = st) ∧
    (∀ (st : MoveState) (dy : ℚ),
      (∀ c ∈ st.crates,
        rectOverlap ⟨st.player.x, st.player.y + dy, st.player.w, st.player.h⟩ c = false) →
      rectOverlap ⟨st.player.x, st.player.y + dy, st.player.w, st.player.h⟩ g.rect = true →
      movePlayerY r st dy = st) := by
  constructor
  · intro st dx hnoc hov
    have hfind := findCollidedCrate_eq_none hnoc
    have hcan := canPlayerMoveTo_eq_false_of_gate hg hc hov
    simp [movePlayerX, hfind, hcan]
  · intro st dy hnoc hov
    have hfind := findCollidedCrate_eq_none hnoc
    have hcan := canPlayerMoveTo_eq_false_of_gate hg hc hov
    simp [movePlayerY, hfind, hcan]

/-- Witness for the amended C1: in region 2, a crate-free player walking
right into the closed gate does not move. -/
theorem closed_gate_blocks_axis_witness :
    movePlayerX ruinsGeom ⟨⟨927, 100, 24, 24⟩, []⟩ 3 = ⟨⟨927, 100, 24, 24⟩, []⟩ :=
  (closed_gate_blocks_axis ruinsGeom ⟨COLS * TILE - 8, 0, 16, ROWS * TILE, true⟩ rfl rfl).1
    ⟨⟨927, 100, 24, 24⟩, []⟩ 3 (by simp)
    (by norm_num [rectOverlap, Gate.rect, COLS, ROWS, TILE])

/-! ## Region transition -/

/-- The `regionEdges` table: per region `[up, right, down, left]`
neighbor ids (`null` → `none`); regions form a left-right chain
0 – 1 – 2 – 3 – 4.  Indices past the table give `[]` (JS `undefined`). -/
def regionEdges : ℕ → List (Option ℕ)
  | 0 => [none, some 1, none, none]
  | 1 => [none, some 2, none, some 0]
  | 2 => [none, some 3, none, some 1]
  | 3 => [none, some 4, none, some 2]
  | 4 => [none, none, none, some 3]
  | _ => []

/-- `regionEdges[i][d]` with JS `undefined` collapsing to `none`. -/
def edge (i d : ℕ) : Option ℕ := ((regionEdges i).get? d).join

/-- The state `checkRegionSwitch` reads and writes: the current region
index and the player rectangle.  All regions share `COLS × ROWS`. -/
structure World where
  currentRegion : ℕ
  player : Rect
deriving DecidableEq

/-- The RIGHT-edge block of `checkRegionSwitch`. -/
def stepRight (st : World) : World :=
  if st.player.x + st.player.w > COLS * TILE then
    match edge st.currentRegion 1 with
    | some next =>
        let relY := st.player.y / (ROWS * TILE)
        { currentRegion := next,
          player := { st.player with
            x := 2,
            y := clamp (↑(jsRound (relY * (ROWS * TILE)))) 2 (ROWS * TILE - st.player.h - 2) } }
    | none => { st with player := { st.player with x := COLS * TILE - st.player.w } }
  else st

/-- The LEFT-edge block of `checkRegionSwitch`. -/
def stepLeft (st : World) : World :=
  if st.player.x < 0 then
    match edge st.currentRegion 3 with
    | some next =>
        let relY := st.player.y / (ROWS * TILE)
        { currentRegion := next,
          player := { st.player with
            x := COLS * TILE - st.player.w - 2,
            y := clamp (↑(jsRound (relY * (ROWS * TILE)))) 2 (ROWS * TILE - st.player.h - 2) } }
    | none => { st with player := { st.player with x := 0 } }
  else st

/-- The TOP-edge block of `checkRegionSwitch`. -/
def stepTop (st : World) : World :=
  if st.player.y < 0 then
    match edge st.currentRegion 0 with
    | some next =>
        let relX := st.player.x / (COLS * TILE)
        { currentRegion := next,
          player := { st.player with
            y := ROWS * TILE - st.player.h - 2,
            x := clamp (↑(jsRound (relX * (COLS * TILE)))) 2 (COLS * TILE - st.player.w - 2) } }
    | none => { st with player := { st.player with y := 0 } }
  else st

/-- The BOTTOM-edge block of `checkRegionSwitch`. -/
def stepBottom (st : World) : World :=
  if st.player.y + st.player.h > ROWS * TILE then
    match edge st.currentRegion 2 with
    | some next =>
        let relX := st.player.x / (COLS * TILE)
        { currentRegion := next,
          player := { st.player with
            y := 2,
            x := clamp (↑(jsRound (relX * (COLS * TILE)))) 2 (COLS * TILE - st.player.w - 2) } }
    | none => { st with player := { st.player with y := ROWS * TILE - st.player.h } }
  else st

/-- `checkRegionSwitch()`: the four edge blocks run in order
right, left, top, bottom, each seeing the previous one's writes. -/
def checkRegionSwitch (st : World) : World :=
  stepBottom (stepTop (stepLeft (stepRight st)))

theorem edge_up_eq_none (n : ℕ) : edge n 0 = none := by
  rcases n with _ | _ | _ | _ | _ | n <;> rfl

theorem edge_down_eq_none (n : ℕ) : edge n 2 = none := by
  rcases n with _ | _ | _ | _ | _ | n <;> rfl

/-- With all up-neighbors absent, the TOP block only clamps `y` to 0. -/
theorem stepTop_eq (st : World) :
    stepTop st = if st.player.y < 0 then { st with player := { st.player with y := 0 } } else st := by
  unfold stepTop
  rw [edge_up_eq_none]

/-- With all down-neighbors absent, the BOTTOM block only clamps `y`. -/
theorem stepBottom_eq (st : World) :
    stepBottom st =
      if st.player.y + st.player.h > ROWS * TILE then
        { st with player := { st.player with y := ROWS * TILE - st.player.h } }
      else st := by
  unfold stepBottom
  rw [edge_down_eq_none]

theorem clamp_le (v a b : ℚ) (hab : a ≤ b) : a ≤ clamp v a b ∧ clamp v a b ≤ b :=
  ⟨le_max_left _ _, max_le hab (min_le_left _ _)⟩

theorem stepLeft_eq_self (st : World) (h : 0 ≤ st.player.x) : stepLeft st = st := by
  unfold stepLeft
  rw [if_neg (not_lt.mpr h)]

theorem stepTop_eq_self (st : World) (h : 0 ≤ st.player.y) : stepTop st = st := by
  rw [stepTop_eq, if_neg (not_lt.mpr h)]

theorem stepBottom_eq_self (st : World) (h : st.player.y + st.player.h ≤ ROWS * TILE) :
    stepBottom st = st := by
  rw [stepBottom_eq, if_neg (not_lt.mpr h)]

theorem stepRight_bounds (st : World) (hw : st.player.w = 24) (hh : st.player.h = 24) :
    (stepRight st).player.w = 24 ∧ (stepRight st).player.h = 24 ∧
    (stepRight st).player.x + (stepRight st).player.w ≤ COLS * TILE := by
  unfold stepRight
  split_ifs with h
  · cases hE : edge st.currentRegion 1 with
    | some next =>
        refine ⟨hw, hh, ?_⟩
        show (2 : ℚ) + st.player.w ≤ COLS * TILE
        rw [hw]
        norm_num [COLS, TILE]
    | none =>
        refine ⟨hw, hh, ?_⟩
        show COLS * TILE - st.player.w + st.player.w ≤ COLS * TILE
        rw [hw]
        norm_num
  · exact ⟨hw, hh, le_of_not_lt h⟩

theorem stepLeft_bounds (st : World) (hw : st.player.w = 24) (hh : st.player.h = 24)
    (hx : st.player.x + st.player.w ≤ COLS * TILE) :
    (stepLeft st).player.w = 24 ∧ (stepLeft st).player.h = 24 ∧
    0 ≤ (stepLeft st).player.x ∧ (stepLeft st).player.x + (stepLeft st).player.w ≤ COLS * TILE := by
  unfold stepLeft
  split_ifs with h
  · cases hE : edge st.currentRegion 3 with
    | some next =>
        refine ⟨hw, hh, ?_, ?_⟩
        · show (0 : ℚ) ≤ COLS * TILE - st.player.w - 2
          rw [hw]
          norm_num [COLS, TILE]
        · show COLS * TILE - st.player.w - 2 + st.player.w ≤ COLS * TILE
          rw [hw]
          norm_num [COLS, TILE]
    | none =>
        refine ⟨hw, hh, le_refl 0, ?_⟩
        show (0 : ℚ) + st.player.w ≤ COLS * TILE
        rw [hw]
        norm_num [COLS, TILE]
  · exact ⟨hw, hh, le_of_not_lt h, hx⟩

theorem stepTop_bounds (st : World) :
    (stepTop st).player.w = st.player.w ∧ (stepTop st).player.h = st.player.h ∧
    (stepTop st).player.x = st.player.x ∧ (stepTop st).currentRegion = st.currentRegion ∧
    0 ≤ (stepTop st).player.y := by
  rw [stepTop_eq]
  split_ifs with h
  · exact ⟨rfl, rfl, rfl, rfl, le_refl 0⟩
  · exact ⟨rfl, rfl, rfl, rfl, le_of_not_lt h⟩

theorem stepBottom_bounds (st : World) (hh : st.player.h = 24) (hy : 0 ≤ st.player.y) :
    (stepBottom st).player.w = st.player.w ∧ (stepBottom st).player.h = st.player.h ∧
    (stepBottom st).player.x = st.player.x ∧ (stepBottom st).currentRegion = st.currentRegion ∧
    0 ≤ (stepBottom st).player.y ∧
    (stepBottom st).player.y + (stepBottom st).player.h ≤ ROWS * TILE := by
  rw [stepBottom_eq]
  split_ifs with h
  · refine ⟨rfl, rfl, rfl, rfl, ?_, ?_⟩
    · show (0 : ℚ) ≤ ROWS * TILE - st.player.h
      rw [hh]
      norm_num [ROWS, TILE]
    · show ROWS * TILE - st.player.h + st.player.h ≤ ROWS * TILE
      rw [hh]
      norm_num
  · exact ⟨rfl, rfl, rfl, rfl, hy, le_of_not_lt h⟩

theorem checkRegionSwitch_containment (st : World)
    (hw : st.player.w = 24) (hh : st.player.h = 24) :
    0 ≤ (checkRegionSwitch st).player.x ∧
    (checkRegionSwitch st).player.x + (checkRegionSwitch st).player.w ≤ COLS * TILE ∧
    0 ≤ (checkRegionSwitch st).player.y ∧
    (checkRegionSwitch st).player.y + (checkRegionSwitch st).player.h ≤ ROWS * TILE := by
  obtain ⟨hw1, hh1, hx1⟩ := stepRight_bounds st hw hh
  obtain ⟨hw2, hh2, hx2l, hx2r⟩ := stepLeft_bounds (stepRight st) hw1 hh1 hx1
  obtain ⟨hw3, hh3, hx3, hr3, hy3⟩ := stepTop_bounds (stepLeft (stepRight st))
  obtain ⟨hw4, hh4, hx4, hr4, hy4l, hy4r⟩ :=
    stepBottom_bounds (stepTop (stepLeft (stepRight st))) (hh3.trans hh2) hy3
  unfold checkRegionSwitch
  refine ⟨?_, ?_, hy4l, hy4r⟩
  · rw [hx4, hx3]
    exact hx2l
  · rw [hx4, hx3, hw4, hw3]
    exact hx2r

theorem movePlayerX_dims (r : RegionGeom) (st : MoveState) (dx : ℚ) :
    (movePlayerX r st dx).player.w = st.player.w ∧
    (movePlayerX r st dx).player.h = st.player.h := by
  simp only [movePlayerX]
  cases hE : findCollidedCrate ⟨st.player.x + dx, st.player.y, st.player.w, st.player.h⟩
      st.crates with
  | some ic =>
      dsimp only
      split_ifs <;> exact ⟨rfl, rfl⟩
  | none =>
      dsimp only
      split_ifs <;> exact ⟨rfl, rfl⟩

theorem movePlayerY_dims (r : RegionGeom) (st : MoveState) (dy : ℚ) :
    (movePlayerY r st dy).player.w = st.player.w ∧
    (movePlayerY r st dy).player.h = st.player.h := by
  simp only [movePlayerY]
  cases hE : findCollidedCrate ⟨st.player.x, st.player.y + dy, st.player.w, st.player.h⟩
      st.crates with
  | some ic =>
      dsimp only
      split_ifs <;> exact ⟨rfl, rfl⟩
  | none =>
      dsimp only
      split_ifs <;> exact ⟨rfl, rfl⟩

theorem movePlayer_dims (r : RegionGeom) (st : MoveState) (dx dy : ℚ) :
    (movePlayer r st dx dy).player.w = st.player.w ∧
    (movePlayer r st dx dy).player.h = st.player.h := by
  unfold movePlayer
  obtain ⟨h1, h2⟩ := movePlayerY_dims r (movePlayerX r st dx) dy
  obtain ⟨h3, h4⟩ := movePlayerX_dims r st dx
  exact ⟨h1.trans h3, h2.trans h4⟩

/-- Claim C10: end-of-tick player containment.  After `movePlayer`
followed by `checkRegionSwitch`, the player rectangle lies entirely
inside the then-current region's pixel bounds, for every starting state,
region geometry and movement delta (the movement resolver alone may
leave the player up to one tile outside; the switch check restores
containment). -/
theorem end_of_tick_containment (r : RegionGeom) (mp : MoveState) (dx dy : ℚ) (reg : ℕ)
    (hw : mp.player.w = 24) (hh : mp.player.h = 24) (_hreg : reg < 5) :
    0 ≤ (checkRegionSwitch ⟨reg, (movePlayer r mp dx dy).player⟩).player.x ∧
    (checkRegionSwitch ⟨reg, (movePlayer r mp dx dy).player⟩).player.x +
      (checkRegionSwitch ⟨reg, (movePlayer r mp dx dy).player⟩).player.w ≤ COLS * TILE ∧
    0 ≤ (checkRegionSwitch ⟨reg, (movePlayer r mp dx dy).player⟩).player.y ∧
    (checkRegionSwitch ⟨reg, (movePlayer r mp dx dy).player⟩).player.y +
      (checkRegionSwitch ⟨reg, (movePlayer r mp dx dy).player⟩).player.h ≤ ROWS * TILE := by
  obtain ⟨h1, h2⟩ := movePlayer_dims r mp dx dy
  exact checkRegionSwitch_containment ⟨reg, (movePlayer r mp dx dy).player⟩
    (h1.trans hw) (h2.trans hh)

/-- Witness for C10 at a concrete tick in region 2. -/
theorem end_of_tick_containment_witness :
    0 ≤ (checkRegionSwitch ⟨2, (movePlayer ruinsGeom ⟨⟨96, 96, 24, 24⟩, []⟩ 3 0).player⟩).player.x ∧
    (checkRegionSwitch ⟨2, (movePlayer ruinsGeom ⟨⟨96, 96, 24, 24⟩, []⟩ 3 0).player⟩).player.x +
      (checkRegionSwitch ⟨2, (movePlayer ruinsGeom ⟨⟨96, 96, 24, 24⟩, []⟩ 3 0).player⟩).player.w
        ≤ COLS * TILE ∧
    0 ≤ (checkRegionSwitch ⟨2, (movePlayer ruinsGeom ⟨⟨96, 96, 24, 24⟩, []⟩ 3 0).player⟩).player.y ∧
    (checkRegionSwitch ⟨2, (movePlayer ruinsGeom ⟨⟨96, 96, 24, 24⟩, []⟩ 3 0).player⟩).player.y +
      (checkRegionSwitch ⟨2, (movePlayer ruinsGeom ⟨⟨96, 96, 24, 24⟩, []⟩ 3 0).player⟩).player.h
        ≤ ROWS * TILE :=
  end_of_tick_containment ruinsGeom ⟨⟨96, 96, 24, 24⟩, []⟩ 3 0 2 rfl rfl (by norm_num)

/-- Claim C8: right-edge boundary crossing.  With no right neighbor the
player's x is clamped so the right edge coincides with the region's
right pixel boundary and the region does not change; with a right
neighbor the region switches to it, the player lands at the left inset
x = 2, and y is the proportionally preserved value clamped inside the
new region's bounds. -/
theorem right_edge_transition (st : World) (hw : st.player.w = 24) (hh : st.player.h = 24)
    (_hreg : st.currentRegion < 5) (hcross : st.player.x + st.player.w > COLS * TILE) :
    (edge st.currentRegion 1 = none →
      (checkRegionSwitch st).currentRegion = st.currentRegion ∧
      (checkRegionSwitch st).player.x + (checkRegionSwitch st).player.w = COLS * TILE) ∧
    (∀ next, edge st.currentRegion 1 = some next →
      (checkRegionSwitch st).currentRegion = next ∧
      (checkRegionSwitch st).player.x = 2 ∧
      (checkRegionSwitch st).player.y =
        clamp (↑(jsRound (st.player.y / (ROWS * TILE) * (ROWS * TILE)))) 2
          (ROWS * TILE - st.player.h - 2) ∧
      2 ≤ (checkRegionSwitch st).player.y ∧
      (checkRegionSwitch st).player.y + (checkRegionSwitch st).player.h ≤ ROWS * TILE) := by
  constructor
  · intro hE
    have h1 : stepRight st =
        { st with player := { st.player with x := COLS * TILE - st.player.w } } := by
      unfold stepRight
      rw [if_pos hcross, hE]
    have h2 : stepLeft (stepRight st) = stepRight st := by
      apply stepLeft_eq_self
      rw [h1]
      show (0 : ℚ) ≤ COLS * TILE - st.player.w
      rw [hw]
      norm_num [COLS, TILE]
    obtain ⟨hw3, hh3, hx3, hr3, hy3⟩ := stepTop_bounds (stepLeft (stepRight st))
    obtain ⟨hw4, hh4, hx4, hr4, hy4l, hy4r⟩ :=
      stepBottom_bounds (stepTop (stepLeft (stepRight st)))
        (by rw [hh3, h2, h1]; exact hh) hy3
    unfold checkRegionSwitch
    constructor
    · rw [hr4, hr3, h2, h1]
    · rw [hx4, hx3, hw4, hw3, h2, h1]
      show COLS * TILE - st.player.w + st.player.w = COLS * TILE
      ring
  · intro next hE
    have h1 : stepRight st =
        { currentRegion := next,
          player := { st.player with
            x := 2,
            y := clamp (↑(jsRound (st.player.y / (ROWS * TILE) * (ROWS * TILE)))) 2
              (ROWS * TILE - st.player.h - 2) } } := by
      unfold stepRight
      rw [if_pos hcross, hE]
    have hyc := clamp_le (↑(jsRound (st.player.y / (ROWS * TILE) * (ROWS * TILE)))) 2
      (ROWS * TILE - st.player.h - 2) (by rw [hh]; norm_num [ROWS, TILE])
    have h2 : stepLeft (stepRight st) = stepRight st := by
      apply stepLeft_eq_self
      rw [h1]
      show (0 : ℚ) ≤ 2
      norm_num
    have h3 : stepTop (stepLeft (stepRight st)) = stepRight st := by
      rw [h2]
      apply stepTop_eq_self
      rw [h1]
      show (0 : ℚ) ≤ clamp _ 2 _
      linarith [hyc.1]
    have h4 : stepBottom (stepTop (stepLeft (stepRight st))) = stepRight st := by
      rw [h3]
      apply stepBottom_eq_self
      rw [h1]
      show clamp _ 2 _ + st.player.h ≤ ROWS * TILE
      have := hyc.2
      linarith
    unfold checkRegionSwitch
    rw [h4, h1]
    refine ⟨rfl, rfl, rfl, hyc.1, ?_⟩
    show clamp _ 2 _ + st.player.h ≤ ROWS * TILE
    have := hyc.2
    linarith

/-- Witness for C8: crossing right out of region 0 at y = 100 lands in
region 1 at x = 2, y = 100. -/
theorem right_edge_transition_witness :
    (checkRegionSwitch ⟨0, ⟨940, 100, 24, 24⟩⟩).currentRegion = 1 ∧
    (checkRegionSwitch ⟨0, ⟨940, 100, 24, 24⟩⟩).player.x = 2 ∧
    (checkRegionSwitch ⟨0, ⟨940, 100, 24, 24⟩⟩).player.y = 100 := by
  have h := (right_edge_transition ⟨0, ⟨940, 100, 24, 24⟩⟩ rfl rfl (by norm_num)
    (by norm_num [COLS, TILE])).2 1 rfl
  refine ⟨h.1, h.2.1, ?_⟩
  rw [h.2.2.1]
  norm_num [clamp, jsRound, ROWS, TILE]

/-! ## Save/load restore (`loadGame` / `initGame`) -/

/-- A parsed per-region puzzle snapshot object, as `setState` reads it:
absent JS fields are `none` / `false`. -/
structure PuzzleSnap where
  solved : Bool
  index : Option ℤ
  enteredCorrectPad : Bool
  lastHitIndex : Option ℤ
  activeStates : Option (List Bool)
deriving DecidableEq

/-- Plate-puzzle `setState` from a generic snapshot object. -/
def plateApplySnap (pv : PuzzleSnap) (_solved : Bool) : Bool := pv.solved

/-- Strict-sequence `setState` from a generic snapshot object
(`index` defaults to 0, `lastHitIndex` to -1 when absent). -/
def seqApplySnap (pv : PuzzleSnap) (_pz : SeqPuzzle) : SeqPuzzle :=
  { solved := pv.solved, index := pv.index.getD 0, entered := pv.enteredCorrectPad,
    lastHit := pv.lastHitIndex.getD (-1) }

/-- Crate-puzzle `setState` from a generic snapshot object. -/
def crateApplySnap (pv : PuzzleSnap) (_solved : Bool) : Bool := pv.solved

/-- Teleporter `setState` from a generic snapshot object: `activeStates`
is applied positionally only when it is an array. -/
def teleApplySnap (pv : PuzzleSnap) (pz : TelePuzzle) : TelePuzzle :=
  { solved := pv.solved,
    teleporterData :=
      match pv.activeStates with
      | some acts => setActives pz.teleporterData acts
      | none => pz.teleporterData }

/-- The four live puzzle instances, in region order 0, 1, 2, 3
(region 4 has none). -/
structure PuzzlesState where
  plate : Bool
  strict : SeqPuzzle
  crate : Bool
  tele : TelePuzzle
deriving DecidableEq

/-- `loadedPuzzles.forEach((pv, ridx) => regions[ridx].puzzle.setState(pv))`:
each region's puzzle takes the snapshot at its own position. -/
def applyPuzzles (ps : PuzzlesState) (loaded : List PuzzleSnap) : PuzzlesState :=
  { plate := match loaded.get? 0 with
      | some pv => plateApplySnap pv ps.plate
      | none => ps.plate,
    strict := match loaded.get? 1 with
      | some pv => seqApplySnap pv ps.strict
      | none => ps.strict,
    crate := match loaded.get? 2 with
      | some pv => crateApplySnap pv ps.crate
      | none => ps.crate,
    tele := match loaded.get? 3 with
      | some pv => teleApplySnap pv ps.tele
      | none => ps.tele }

/-- The session state `loadGame` / `initGame` touch: primary variables
plus the per-region restorable content (collected flags, crate
positions, puzzle states, positionally per region). -/
structure SessionState where
  currentRegion : ℤ
  posX : ℚ
  posY : ℚ
  gameTime : ℚ
  seedsCollected : List (List Bool)
  cratePositions : List (List (ℚ × ℚ))
  puzzles : PuzzlesState
deriving DecidableEq

/-- A positional `loaded.forEach((y, i) => if (current[i]) current[i] = f current[i] y)`
overlay: entries beyond either list are left alone / ignored. -/
def overlayList {α β : Type} (f : α → β → α) : List α → List β → List α
  | xs, [] => xs
  | [], _ :: _ => []
  | x :: xs, y :: ys => f x y :: overlayList f xs ys

/-- A fetched save row after `response.json()`: `none` models a fetch
error, HTTP failure or JSON `null`; a component field is `none` when the
stored string fails `JSON.parse` (or is not a string). -/
structure RawSnapshot where
  hasPlayerName : Bool
  region : ℤ
  posX : ℚ
  posY : ℚ
  gameTime : ℚ
  seeds : Option (List (List Bool))
  crates : Option (List (List (ℚ × ℚ)))
  puzzles : Option (List PuzzleSnap)
deriving DecidableEq

/-- `loadGame()`: primary variables are restored FIRST, then seeds, then
crates, then puzzles; the first component that fails to parse aborts
with `false`, keeping everything already restored. -/
def loadGame (snap : Option RawSnapshot) (st : SessionState) : Bool × SessionState :=
  match snap with
  | none => (false, st)
  | some s =>
      if s.hasPlayerName = false then (false, st)
      else
        let st1 : SessionState :=
          { st with
            currentRegion := s.region,
            posX := s.posX,
            posY := s.posY,
            gameTime := s.gameTime }
        match s.seeds with
        | none => (false, st1)
        | some loadedSeeds =>
            let st2 := { st1 with
              seedsCollected :=
                overlayList (overlayList fun _ b => b) st1.seedsCollected loadedSeeds }
            match s.crates with
            | none => (false, st2)
            | some loadedCrates =>
                let st3 := { st2 with
                  cratePositions :=
                    overlayList (overlayList fun _ p => p) st2.cratePositions loadedCrates }
                match s.puzzles with
                | none => (false, st3)
                | some loadedPuzzles =>
                    (true, { st3 with puzzles := applyPuzzles st3.puzzles loadedPuzzles })

/-- `generateContent()`'s collected flags: one seed in regions 0–2, two
in region 3, none in region 4. -/
def freshSeeds : List (List Bool) := [[false], [false], [false], [false, false], []]

/-- `generateContent()`'s crate positions: one crate in region 0, two in
region 2. -/
def freshCrates : List (List (ℚ × ℚ)) :=
  [[(6 * TILE, 6 * TILE)], [], [(12 * TILE, 4 * TILE), (12 * TILE, 12 * TILE)], [], []]

/-- `generateContent()`'s puzzle instances. -/
def freshPuzzles : PuzzlesState :=
  { plate := false,
    strict := ⟨false, 0, false, -1⟩,
    crate := false,
    tele := { solved := false,
              teleporterData := [⟨22 * TILE, 4 * TILE, false⟩, ⟨8 * TILE, 14 * TILE, false⟩] } }

/-- `generateContent()`: region content is rebuilt from scratch; the
primary variables are left as they were. -/
def generateContent (st : SessionState) : SessionState :=
  { st with
    seedsCollected := freshSeeds,
    cratePositions := freshCrates,
    puzzles := freshPuzzles }

/-- The resume path of `initGame(false)`: `generateContent()`, then
`loadGame()`; on failure the primary variables are reset to the new-game
values (`region 0`, position `(3*TILE, 3*TILE)`, time 0) — but nothing
else is re-reset. -/
def initGameLoad (prior : SessionState) (snap : Option RawSnapshot) : SessionState :=
  let st0 := generateContent prior
  let res := loadGame snap st0
  if res.1 = true then res.2
  else
    { res.2 with
      currentRegion := 0,
      posX := 3 * TILE,
      posY := 3 * TILE,
      gameTime := 0 }

/-- The globals as they stand on page load, before `initGame` runs. -/
def pageLoadSession : SessionState :=
  { currentRegion := 0, posX := 3 * TILE, posY := 3 * TILE, gameTime := 0,
    seedsCollected := freshSeeds, cratePositions := freshCrates, puzzles := freshPuzzles }

/-- A snapshot whose seeds component parses but whose crates component is
malformed. -/
def badCratesSnap : RawSnapshot :=
  { hasPlayerName := true, region := 3, posX := 200, posY := 300, gameTime := 5000,
    seeds := some [[true]], crates := none, puzzles := none }

/-- Claim C4 counterexample: loading `badCratesSnap` reports failure, yet
the session does NOT start fresh — the seed of region 0 stays marked
collected (restored before the crates component failed), so the
post-init state differs from the no-save state. -/
theorem malformed_snapshot_leaves_residue :
    (loadGame (some badCratesSnap) (generateContent pageLoadSession)).1 = false ∧
    (initGameLoad pageLoadSession (some badCratesSnap)).seedsCollected =
      [[true], [false], [false], [false, false], []] ∧
    initGameLoad pageLoadSession (some badCratesSnap) ≠ initGameLoad pageLoadSession none := by
  refine ⟨rfl, rfl, ?_⟩
  intro h
  have hres := congrArg SessionState.seedsCollected h
  simp only [initGameLoad, loadGame, generateContent] at hres
  cases hres

/-- A snapshot that fails before any component restore (seeds malformed). -/
def badSeedsSnap : RawSnapshot :=
  { hasPlayerName := true, region := 2, posX := 10, posY := 20, gameTime := 1234,
    seeds := none, crates := none, puzzles := none }

/-- Claim C4 (amended): a failed load is never fatal and always resets
the primary variables (current region, player position, game time) to
the new-game values; and when the failure occurs before any region
component is restored (missing snapshot, missing player name, or a
malformed seeds component), the session is exactly the no-save session.
Components restored before the failing one, however, keep their restored
values. -/
theorem load_failure_resets_primary_state (prior : SessionState) (snap : Option RawSnapshot)
    (h : (loadGame snap (generateContent prior)).1 = false) :
    ((initGameLoad prior snap).currentRegion = 0 ∧
     (initGameLoad prior snap).posX = 3 * TILE ∧
     (initGameLoad prior snap).posY = 3 * TILE ∧
     (initGameLoad prior snap).gameTime = 0) ∧
    (∀ s, snap = some s → s.hasPlayerName = true → s.seeds = none →
      initGameLoad prior snap = initGameLoad prior none) ∧
    (∀ s, snap = some s → s.hasPlayerName = false →
      initGameLoad prior snap = initGameLoad prior none) ∧
    (snap = none → initGameLoad prior snap = initGameLoad prior none) := by
  refine ⟨?_, ?_, ?_, ?_⟩
  · simp [initGameLoad, h]
  · rintro s rfl hname hseeds
    obtain ⟨hpn, region, posX, posY, gameTime, seeds, crates, puzzles⟩ := s
    simp only at hname hseeds
    subst hname
    subst hseeds
    rfl
  · rintro s rfl hname
    obtain ⟨hpn, region, posX, posY, gameTime, seeds, crates, puzzles⟩ := s
    simp only at hname
    subst hname
    rfl
  · rintro rfl
    rfl

/-- Witness for the amended C4: a malformed-seeds snapshot yields exactly
the fresh new-game session. -/
theorem load_failure_resets_primary_state_witness :
    (initGameLoad pageLoadSession (some badSeedsSnap)).currentRegion = 0 ∧
    initGameLoad pageLoadSession (some badSeedsSnap) = initGameLoad pageLoadSession none := by
  have h := load_failure_resets_primary_state pageLoadSession (some badSeedsSnap) rfl
  exact ⟨h.1.1, h.2.1 badSeedsSnap rfl rfl rfl⟩

end LandExplorer
